import Mathlib

/-!
Shallow embedding of `src/strava_api/strava_api.py`.

The script downloads Strava activities, flattens them into a pandas
DataFrame (`activities`), wrangles the table (timestamp split, speed
conversions, polyline decoding, column drop), filters to rows of type
"Ride", re-indexes by start date, selects one ride (`longest` or `last`),
and renders its route with folium, saving the map to "ride_map.html".

The DataFrame is embedded as a list of column names plus a list of rows
of cell values; numbers are modelled as rationals (the script's constants
3.6 and 2.237 are the rationals 36/10 and 2237/1000).  Fallible pandas
operations (missing columns, out-of-bounds `iloc`) return `Except`.
Pandas `squeeze` semantics — a length-1 axis collapses, anything else is
returned unchanged — is modelled explicitly, as is the fact that
`DataFrame.loc[mask]` returns a copy, so that the in-place `set_index`
on `rides` does not touch `activities`.
-/

/-- Cell values occurring in the activity table: strings (activity type,
timestamps, dates), numbers (distance, speeds), and decoded coordinate
sequences. -/
inductive Value where
  | vstr (s : String)
  | vnum (q : ℚ)
  | vcoords (cs : List (ℚ × ℚ))
deriving DecidableEq, Repr

/-- Default cell used for out-of-range positional access. -/
def defaultCell : Value := .vstr ""

/-- Flat table as produced by `json_normalize`: shared column names and
one list of cells per row (`strava_api.py` line 46). -/
structure Frame where
  cols : List String
  rows : List (List Value)
deriving DecidableEq, Repr

/-- Table whose index has been replaced by a column (`set_index`,
line 78): each row carries its index label next to its cells. -/
structure IndexedFrame where
  cols : List String
  rows : List (Value × List Value)
deriving DecidableEq, Repr

/-- Split a character list at the first occurrence of `c`: the part
before it and the part after it (everything, if `c` never occurs). -/
def splitAtChar (c : Char) : List Char → List Char × List Char
  | [] => ([], [])
  | x :: xs =>
      if x = c then ([], xs)
      else
        let p := splitAtChar c xs
        (x :: p.1, p.2)

/-- Date component of an ISO-8601 local timestamp, as produced by
`pd.to_datetime(...).dt.date` (line 53): everything before the `T`. -/
def tsDate (s : String) : String := String.mk (splitAtChar 'T' s.toList).1

/-- Time-of-day component of an ISO-8601 local timestamp, as produced by
`pd.to_datetime(...).dt.time` (line 52): everything after the `T`, with
the trailing zone marker removed. -/
def tsTime (s : String) : String :=
  String.mk (splitAtChar 'Z' (splitAtChar 'T' s.toList).2).1

/-- String content of a cell (timestamp cells are strings). -/
def asStr : Value → String
  | .vstr s => s
  | _ => ""

/-- Row-wise effect of lines 51-53: the start timestamp is replaced by
its date component and the time component is appended as a new cell for
the `start_time` column. -/
def splitRow (i : Nat) (r : List Value) : List Value :=
  let s := asStr (r.getD i defaultCell)
  (r.set i (.vstr (tsDate s))) ++ [.vstr (tsTime s)]

/-- Lines 51-53: break `start_date_local` into a date (kept in place)
and a time of day (new trailing column `start_time`).  A missing column
is a pandas `KeyError`. -/
def splitDateStep (f : Frame) : Except String Frame :=
  match f.cols.indexOf? "start_date_local" with
  | none => .error "KeyError: start_date_local"
  | some i => .ok ⟨f.cols ++ ["start_time"], f.rows.map (splitRow i)⟩

/-- Elementwise multiplication of a cell by a scalar, the effect of
`activities[c] * k` on one cell of a numeric column. -/
def vmul (v : Value) (k : ℚ) : Value :=
  match v with
  | .vnum q => .vnum (q * k)
  | v => v

/-- Row-wise effect of lines 56-57: append the km/h and mph speeds
derived from the `average_speed` cell at position `i`. -/
def speedRow (i : Nat) (r : List Value) : List Value :=
  r ++ [vmul (r.getD i defaultCell) (36 / 10), vmul (r.getD i defaultCell) (2237 / 1000)]

/-- Lines 56-57: `average_speed_kmh = average_speed * 3.6` and
`average_speed_mph = average_speed * 2.237`, appended as new columns. -/
def speedStep (f : Frame) : Except String Frame :=
  match f.cols.indexOf? "average_speed" with
  | none => .error "KeyError: average_speed"
  | some i =>
      .ok ⟨f.cols ++ ["average_speed_kmh", "average_speed_mph"], f.rows.map (speedRow i)⟩

namespace polyline

/-- Google polyline decoding of the stream of signed integers: five-bit
chunks (char - 63), continuation bit 0x20, zigzag sign coding. -/
def decodeSigned (bytes : List Nat) (acc : Nat) (shift : Nat) : List Int :=
  match bytes with
  | [] => []
  | b :: rest =>
      let v := b - 63
      if 32 ≤ v then
        decodeSigned rest (acc + (v - 32) * 2 ^ shift) (shift + 5)
      else
        let total := acc + v * 2 ^ shift
        let n : Int :=
          if total % 2 = 1 then -(((total + 1) / 2 : Nat) : Int)
          else ((total / 2 : Nat) : Int)
        n :: decodeSigned rest 0 0

/-- Group the decoded deltas into (lat, lng) pairs. -/
def pairUp : List Int → List (Int × Int)
  | a :: b :: rest => (a, b) :: pairUp rest
  | _ => []

/-- Running sums: each coordinate is encoded as a delta from the
previous one. -/
def cumsum (la ln : Int) : List (Int × Int) → List (Int × Int)
  | [] => []
  | (a, b) :: rest => (la + a, ln + b) :: cumsum (la + a) (ln + b) rest

/-- Decoder of the `polyline` library used on line 60: yields the
ordered (latitude, longitude) pairs scaled by 1e-5. -/
def decode (s : String) : List (ℚ × ℚ) :=
  (cumsum 0 0 (pairUp (decodeSigned (s.toList.map Char.toNat) 0 0))).map
    (fun p => ((p.1 : ℚ) / 100000, (p.2 : ℚ) / 100000))

end polyline

/-- Row-wise effect of line 60: append the decoded polyline of the
`map.summary_polyline` cell at position `i`. -/
def decodeRow (i : Nat) (r : List Value) : List Value :=
  r ++ [.vcoords (polyline.decode (asStr (r.getD i defaultCell)))]

/-- Line 60: `activities[map.polyline] =
activities[map.summary_polyline].apply(polyline.decode)`. -/
def decodeStep (f : Frame) : Except String Frame :=
  match f.cols.indexOf? "map.summary_polyline" with
  | none => .error "KeyError: map.summary_polyline"
  | some i => .ok ⟨f.cols ++ ["map.polyline"], f.rows.map (decodeRow i)⟩

/-- Column labels dropped on lines 63-72, in source order. -/
def dropList : List String :=
  ["map.summary_polyline", "resource_state", "external_id", "upload_id",
   "location_city", "location_state", "has_kudoed", "start_date", "athlete.resource_state",
   "utc_offset", "map.resource_state", "athlete.id", "visibility", "heartrate_opt_out",
   "upload_id_str", "from_accepted_tag", "map.id", "manual", "private", "flagged"]

/-- Row-wise effect of the column drop: keep the cells whose column name
survives. -/
def dropRow (cols labels : List String) (r : List Value) : List Value :=
  ((cols.zip r).filter (fun p => ¬ labels.contains p.1)).map Prod.snd

/-- Lines 63-72: `activities.drop([...], axis=1, inplace=True)`.  With
the default `errors="raise"`, pandas raises `KeyError` when any listed
label is absent from the column axis; there is no defensive check. -/
def dropStep (f : Frame) : Except String Frame :=
  if dropList.all f.cols.contains then
    .ok ⟨f.cols.filter (fun c => ¬ dropList.contains c), f.rows.map (dropRow f.cols dropList)⟩
  else
    .error "KeyError: labels not found in axis"

/-- The whole wrangling stage of lines 49-72, in source order. -/
def transform (f : Frame) : Except String Frame :=
  (splitDateStep f).bind fun f1 =>
    (speedStep f1).bind fun f2 =>
      (decodeStep f2).bind fun f3 => dropStep f3

/-- Line 75: `rides = activities.loc[activities[type] == Ride]`.
Boolean-mask `loc` keeps the matching rows in their original relative
order and returns a new frame (a copy, not a view that would alias
`activities`). -/
def filterRides (f : Frame) : Except String Frame :=
  match f.cols.indexOf? "type" with
  | none => .error "KeyError: type"
  | some i => .ok ⟨f.cols, f.rows.filter (fun r => r.getD i defaultCell == .vstr "Ride")⟩

/-- Line 78: `rides.set_index(start_date_local, inplace=True)` moves the
named column out of the column axis and into the row index. -/
def Frame.setIndex (f : Frame) (c : String) : Except String IndexedFrame :=
  match f.cols.indexOf? c with
  | none => .error "KeyError: set_index"
  | some i =>
      .ok ⟨f.cols.eraseIdx i, f.rows.map (fun r => (r.getD i defaultCell, r.eraseIdx i))⟩

/-- Script state around lines 75-78: the full `activities` table and the
derived `rides` table (absent before line 75 runs). -/
structure ScriptState where
  activities : Frame
  rides : Option (Except String IndexedFrame)
deriving Repr

/-- Lines 75-78 as one state transition.  `activities.loc[mask]` returns
a copy, so the in-place `set_index` on `rides` mutates only the copy and
`activities` is left untouched. -/
def ridesStep (s : ScriptState) : ScriptState :=
  { activities := s.activities,
    rides := some ((filterRides s.activities).bind fun r => r.setIndex "start_date_local") }

/-- Result of pandas `squeeze` (line 85): each length-1 axis collapses —
a 1x1 frame to a scalar, a single row to a Series (its index label and
its labelled cells), a single column to a Series of cells — and any
other shape is returned unchanged. -/
inductive Squeezed where
  | scalar (v : Value)
  | row (name : Value) (cells : List (String × Value))
  | col (cells : List Value)
  | frame (f : IndexedFrame)
deriving DecidableEq, Repr

/-- Pandas `DataFrame.squeeze`: collapse length-1 axes only. -/
def IndexedFrame.squeeze (f : IndexedFrame) : Squeezed :=
  match f.rows, f.cols with
  | [(_, r)], [_] => .scalar (r.getD 0 defaultCell)
  | [(n, r)], _ => .row n (f.cols.zip r)
  | rs, [_] => .col (rs.map (fun nr => nr.2.getD 0 defaultCell))
  | _, _ => .frame f

/-- Column of an indexed frame at cell position `i`. -/
def IndexedFrame.column (f : IndexedFrame) (i : Nat) : List Value :=
  f.rows.map (fun nr => nr.2.getD i defaultCell)

/-- Pandas `Series.max()`: maximum of the numeric entries, `none` on an
empty column (pandas yields NaN there, which no equality test matches). -/
def seriesMax (vs : List Value) : Option ℚ :=
  (vs.filterMap (fun v => match v with | .vnum q => some q | _ => none)).max?

/-- Keep the rows satisfying a boolean mask, in order. -/
def IndexedFrame.filterRows (f : IndexedFrame) (p : Value × List Value → Bool) : IndexedFrame :=
  ⟨f.cols, f.rows.filter p⟩

/-- Boolean mask of line 85: `rides.distance == rides.distance.max()`.
On an empty table the maximum is NaN and the mask holds nowhere. -/
def longestMask (f : IndexedFrame) (i : Nat) (nr : Value × List Value) : Bool :=
  match seriesMax (f.column i), nr.2.getD i defaultCell with
  | some q, .vnum x => x == q
  | _, _ => false

/-- Line 85: `my_ride = rides[rides.distance == rides.distance.max()].squeeze()`.
A missing `distance` column would be an attribute error; otherwise the
masked selection is squeezed. -/
def selectLongest (f : IndexedFrame) : Except String Squeezed :=
  match f.cols.indexOf? "distance" with
  | none => .error "AttributeError: distance"
  | some i => .ok (f.filterRows (longestMask f i)).squeeze

/-- Line 87: `my_ride = rides.iloc[0, :]` — the first row as a Series;
on an empty table `iloc[0]` raises `IndexError`. -/
def selectLast (f : IndexedFrame) : Except String Squeezed :=
  match f.rows with
  | [] => .error "IndexError: single positional indexer is out-of-bounds"
  | (n, r) :: _ => .ok (.row n (f.cols.zip r))

/-- The hardcoded selection mode of line 82. -/
def which_ride : String := "last"

/-- Lines 84-87: the `if / elif` dispatch on `which_ride`.  No branch
matches an unrecognized mode, so `my_ride` is never assigned (`none`). -/
def selectRide (mode : String) (f : IndexedFrame) : Option (Except String Squeezed) :=
  if mode == "longest" then some (selectLongest f)
  else if mode == "last" then some (selectLast f)
  else none

/-- Mean as computed by `np.mean` on lines 91-92: sum over length. -/
def npMean (xs : List ℚ) : ℚ := xs.sum / xs.length

/-- Lines 90-93: the map center is the pair of means of the latitudes
and of the longitudes of the decoded coordinate sequence. -/
def centroid (coords : List (ℚ × ℚ)) : List ℚ :=
  [npMean (coords.map Prod.fst), npMean (coords.map Prod.snd)]

/-- Observable effects of the folium calls on lines 95-100: the map
center, the route overlay, and the path the HTML document is saved to. -/
structure RenderOutput where
  location : List ℚ
  overlay : List (ℚ × ℚ)
  savePath : String
deriving DecidableEq, Repr

/-- Lines 90-100 applied to the selection outcome.  An unassigned
`my_ride` (unrecognized mode) faults with `NameError` at its first use
on line 91; a selection exception propagates; a selected Series row is
rendered from its `map.polyline` cell and saved to the fixed relative
path "ride_map.html".  The multi-row shapes feed numpy broadcasting the
claims never reach and are not modelled further. -/
def renderStage (myRide : Option (Except String Squeezed)) : Except String RenderOutput :=
  match myRide with
  | none => .error "NameError: my_ride is not defined"
  | some (.error e) => .error e
  | some (.ok sq) =>
      match sq with
      | .row _ cells =>
          match cells.lookup "map.polyline" with
          | some (.vcoords cs) => .ok ⟨centroid cs, cs, "ride_map.html"⟩
          | _ => .error "KeyError: map.polyline"
      | _ => .error "TypeError: selection is not a single row"

/-- Line 100: `ride_map.save("ride_map.html")` writes the document at
the given path, replacing whatever the file system held there. -/
def saveMap (fs : String → Option String) (out : RenderOutput) (html : String) :
    String → Option String :=
  fun p => if p = out.savePath then some html else fs p

/-! Concrete fixtures used by witnesses and counterexamples. -/

/-- Two rides tying for the maximum distance. -/
def tieRides : IndexedFrame :=
  ⟨["distance", "type"],
   [(.vstr "2021-03-05", [.vnum 10, .vstr "Ride"]),
    (.vstr "2021-03-06", [.vnum 10, .vstr "Ride"])]⟩

/-- Two rides with a unique maximum distance (the second one). -/
def uniqRides : IndexedFrame :=
  ⟨["distance", "type"],
   [(.vstr "2021-03-05", [.vnum 5, .vstr "Ride"]),
    (.vstr "2021-03-06", [.vnum 10, .vstr "Ride"])]⟩

/-- Activity table whose single record is a Run, so the Ride filter
leaves nothing. -/
def runOnlyActivities : Frame :=
  ⟨["start_date_local", "distance", "type"],
   [[.vstr "2021-03-05", .vnum 7, .vstr "Run"]]⟩

/-- The empty rides table obtained from `runOnlyActivities`. -/
def runOnlyRides : IndexedFrame := ⟨["distance", "type"], []⟩

/-- Activity table carrying every column the wrangling stage touches:
the three derived-field sources, the filter and index columns, and the
whole drop list. -/
def demoActivities : Frame :=
  ⟨["start_date_local", "average_speed", "type", "distance"] ++ dropList,
   [[.vstr "2021-03-05T17:00:00Z", .vnum 5, .vstr "Ride", .vnum 100] ++
      List.replicate 20 defaultCell]⟩

/-- Result of the wrangling stage on `demoActivities` (the derived
speeds kept as the products the step computes; `5 * 36/10 = 18` and
`5 * 2237/1000 = 11.185`). -/
def demoTransformed : Frame :=
  ⟨["start_date_local", "average_speed", "type", "distance",
    "start_time", "average_speed_kmh", "average_speed_mph", "map.polyline"],
   [[.vstr "2021-03-05", .vnum 5, .vstr "Ride", .vnum 100,
     .vstr "17:00:00", .vnum (5 * (36 / 10)), .vnum (5 * (2237 / 1000)), .vcoords []]]⟩

/-- Result of filtering and re-indexing `demoTransformed`. -/
def demoRides : IndexedFrame :=
  ⟨["average_speed", "type", "distance",
    "start_time", "average_speed_kmh", "average_speed_mph", "map.polyline"],
   [(.vstr "2021-03-05",
     [.vnum 5, .vstr "Ride", .vnum 100,
      .vstr "17:00:00", .vnum (5 * (36 / 10)), .vnum (5 * (2237 / 1000)), .vcoords []])]⟩

/-- Two-point route used in the centroid example. -/
def demoCoords : List (ℚ × ℚ) := [((45 : ℚ), -122), (45 + 1 / 100, -(122 + 1 / 100))]

/-- Cells of a selected ride holding the demo route. -/
def demoCells : List (String × Value) := [("map.polyline", .vcoords demoCoords)]

/-- A selection outcome that reaches the renderer. -/
def demoRide : Option (Except String Squeezed) :=
  some (.ok (.row (.vstr "2021-03-05") demoCells))

/-- Render output of `demoRide`. -/
def demoOut : RenderOutput := ⟨centroid demoCoords, demoCoords, "ride_map.html"⟩

/-- A file system that already holds a previous map document. -/
def demoFs : String → Option String := fun _ => some "previous document"

/-- Table with a zero and a negative average speed. -/
def demoSpeedFrame : Frame := ⟨["average_speed"], [[.vnum 0], [.vnum (-3)]]⟩

/-- Discriminator: does a selection outcome deliver a single row
(a pandas Series)? -/
def isSingleRowResult : Except String Squeezed → Bool
  | .ok (.row _ _) => true
  | _ => false

/-! Helper lemmas shared by the claim theorems. -/

/-- Helper: a successful `Except.bind` factors through a successful
first stage. -/
theorem except_bind_ok {α β γ : Type} {e : Except α β} {g : β → Except α γ} {v : γ}
    (h : e.bind g = .ok v) : ∃ u, e = .ok u ∧ g u = .ok v := by
  cases e with
  | error a => exact absurd h (by simp [Except.bind])
  | ok u => exact ⟨u, rfl, h⟩

/-- Helper: the timestamp split maps every row in place. -/
theorem splitDateStep_rows {f g : Frame} (h : splitDateStep f = .ok g) :
    ∃ i, g.rows = f.rows.map (splitRow i) := by
  unfold splitDateStep at h
  cases hc : f.cols.indexOf? "start_date_local" with
  | none => rw [hc] at h; exact absurd h (by simp)
  | some i => rw [hc] at h; injection h with h; exact ⟨i, by rw [← h]⟩

/-- Helper: the speed derivation maps every row in place. -/
theorem speedStep_rows {f g : Frame} (h : speedStep f = .ok g) :
    ∃ i, g.rows = f.rows.map (speedRow i) := by
  unfold speedStep at h
  cases hc : f.cols.indexOf? "average_speed" with
  | none => rw [hc] at h; exact absurd h (by simp)
  | some i => rw [hc] at h; injection h with h; exact ⟨i, by rw [← h]⟩

/-- Helper: the polyline decode maps every row in place. -/
theorem decodeStep_rows {f g : Frame} (h : decodeStep f = .ok g) :
    ∃ i, g.rows = f.rows.map (decodeRow i) := by
  unfold decodeStep at h
  cases hc : f.cols.indexOf? "map.summary_polyline" with
  | none => rw [hc] at h; exact absurd h (by simp)
  | some i => rw [hc] at h; injection h with h; exact ⟨i, by rw [← h]⟩

/-- Helper: the column drop maps every row in place. -/
theorem dropStep_rows {f g : Frame} (h : dropStep f = .ok g) :
    g.rows = f.rows.map (dropRow f.cols dropList) := by
  unfold dropStep at h
  split at h
  · injection h with h; rw [← h]
  · exact absurd h (by simp)

/-- Helper: the type filter keeps the columns and filters the rows. -/
theorem filterRides_rows {f g : Frame} (h : filterRides f = .ok g) :
    g.cols = f.cols ∧ ∃ p, g.rows = f.rows.filter p := by
  unfold filterRides at h
  cases hc : f.cols.indexOf? "type" with
  | none => rw [hc] at h; exact absurd h (by simp)
  | some i =>
      rw [hc] at h; injection h with h
      exact ⟨by rw [← h], ⟨_, by rw [← h]⟩⟩

/-- Helper: the re-index maps every row in place. -/
theorem setIndex_rows {f : Frame} {c : String} {g : IndexedFrame}
    (h : f.setIndex c = .ok g) :
    ∃ i, g.rows = f.rows.map (fun r => (r.getD i defaultCell, r.eraseIdx i)) := by
  unfold Frame.setIndex at h
  cases hc : f.cols.indexOf? c with
  | none => rw [hc] at h; exact absurd h (by simp)
  | some i => rw [hc] at h; injection h with h; exact ⟨i, by rw [← h]⟩

/-- Claim C7: the wrangling stage (timestamp split, speed derivation,
polyline decode, column drop) acts row-wise, so it keeps every row and
the relative order of rows; the explicit type filter keeps the survivors
as a sublist of the wrangled rows (original relative order), and the
re-index by start date again acts row-wise. -/
theorem transform_preserves_row_order (f g rf : Frame) (ri : IndexedFrame)
    (hg : transform f = .ok g)
    (hr : filterRides g = .ok rf)
    (hi : rf.setIndex "start_date_local" = .ok ri) :
    (∃ t, g.rows = f.rows.map t) ∧
    rf.rows.Sublist g.rows ∧ rf.cols = g.cols ∧
    (∃ t2, ri.rows = rf.rows.map t2) := by
  obtain ⟨f1, h1, hg⟩ := except_bind_ok hg
  obtain ⟨f2, h2, hg⟩ := except_bind_ok hg
  obtain ⟨f3, h3, h4⟩ := except_bind_ok hg
  obtain ⟨i1, e1⟩ := splitDateStep_rows h1
  obtain ⟨i2, e2⟩ := speedStep_rows h2
  obtain ⟨i3, e3⟩ := decodeStep_rows h3
  have e4 := dropStep_rows h4
  obtain ⟨hcols, p, e5⟩ := filterRides_rows hr
  obtain ⟨i4, e6⟩ := setIndex_rows hi
  refine ⟨⟨fun r => dropRow f3.cols dropList (decodeRow i3 (speedRow i2 (splitRow i1 r))), ?_⟩,
    ?_, hcols, ⟨_, e6⟩⟩
  · rw [e4, e3, e2, e1, List.map_map, List.map_map, List.map_map]; rfl
  · rw [e5]; exact List.filter_sublist g.rows

deriving instance DecidableEq for Except

/-- Claim C7 witness: the one-ride demo table passes the whole wrangling
stage, the filter, and the re-index, with order-preserving shapes. -/
theorem transform_preserves_row_order_witness :
    (transform demoActivities = .ok demoTransformed ∧
     filterRides demoTransformed = .ok demoTransformed ∧
     demoTransformed.setIndex "start_date_local" = .ok demoRides) ∧
    ((∃ t, demoTransformed.rows = demoActivities.rows.map t) ∧
     demoTransformed.rows.Sublist demoTransformed.rows ∧
     demoTransformed.cols = demoTransformed.cols ∧
     (∃ t2, demoRides.rows = demoTransformed.rows.map t2)) :=
  ⟨⟨by rfl, by rfl, by rfl⟩,
   transform_preserves_row_order demoActivities demoTransformed demoTransformed demoRides
     (by rfl) (by rfl) (by rfl)⟩

/-- Claim C5: whenever the `average_speed` column exists, the speed step
never fails, and on a cell holding any rational `q` — zero and negative
included — it appends exactly `q * 3.6` (km/h) and `q * 2.237` (mph). -/
theorem speed_conversion_exact (f : Frame) (i : Nat) (r : List Value) (q : ℚ)
    (hi : f.cols.indexOf? "average_speed" = some i)
    (hq : r.getD i defaultCell = .vnum q) :
    speedStep f =
      .ok ⟨f.cols ++ ["average_speed_kmh", "average_speed_mph"], f.rows.map (speedRow i)⟩ ∧
    speedRow i r = r ++ [.vnum (q * (36 / 10)), .vnum (q * (2237 / 1000))] := by
  constructor
  · unfold speedStep; rw [hi]
  · unfold speedRow; rw [hq]; rfl

/-- Claim C5 witness: a table holding a zero and a negative average
speed, instantiated at the negative row. -/
theorem speed_conversion_exact_witness :
    (demoSpeedFrame.cols.indexOf? "average_speed" = some 0 ∧
     ([(.vnum (-3) : Value)].getD 0 defaultCell = .vnum (-3))) ∧
    (speedStep demoSpeedFrame =
      .ok ⟨demoSpeedFrame.cols ++ ["average_speed_kmh", "average_speed_mph"],
           demoSpeedFrame.rows.map (speedRow 0)⟩ ∧
     speedRow 0 [.vnum (-3)] =
       [.vnum (-3)] ++ [.vnum ((-3) * (36 / 10)), .vnum ((-3) * (2237 / 1000))]) :=
  ⟨⟨by rfl, by rfl⟩,
   speed_conversion_exact demoSpeedFrame 0 [.vnum (-3)] (-3) (by rfl) (by rfl)⟩

/-- Claim C4: in mode `last`, on any non-empty rides table the selection
is assigned and returns the first row (as the Series `iloc[0, :]`). -/
theorem last_mode_selects_first_row (f : IndexedFrame) (n : Value) (r : List Value)
    (rest : List (Value × List Value)) (h : f.rows = (n, r) :: rest) :
    selectRide "last" f = some (.ok (.row n (f.cols.zip r))) := by
  unfold selectRide selectLast
  rw [h]
  rfl

/-- Claim C4 witness: on the two-ride table the `last` selection is its
first row. -/
theorem last_mode_selects_first_row_witness :
    uniqRides.rows = (.vstr "2021-03-05", [.vnum 5, .vstr "Ride"]) :: uniqRides.rows.tail ∧
    selectRide "last" uniqRides =
      some (.ok (.row (.vstr "2021-03-05")
        (uniqRides.cols.zip [.vnum 5, .vstr "Ride"]))) :=
  ⟨by rfl,
   last_mode_selects_first_row uniqRides (.vstr "2021-03-05") [.vnum 5, .vstr "Ride"]
     uniqRides.rows.tail (by rfl)⟩

/-- Helper: the dispatch recognizes the literal mode `longest`. -/
theorem selectRide_longest (f : IndexedFrame) :
    selectRide "longest" f = some (selectLongest f) := rfl

/-- Helper: the dispatch recognizes the literal mode `last`. -/
theorem selectRide_last (f : IndexedFrame) :
    selectRide "last" f = some (selectLast f) := rfl

/-- Claim C1 (amended): in mode `longest`, when exactly one row attains
the maximum distance the selection returns exactly that row (a Series);
when several rows tie — or none match — `squeeze` leaves the selection
untouched and the whole multi-row (or empty) table of matches is
returned, not the first match. -/
theorem longest_selection_amended (f : IndexedFrame) (i : Nat)
    (hi : f.cols.indexOf? "distance" = some i) (hc : 2 ≤ f.cols.length) :
    selectRide "longest" f =
      some (.ok (match f.rows.filter (longestMask f i) with
        | [(n, r)] => .row n (f.cols.zip r)
        | ms => .frame ⟨f.cols, ms⟩)) := by
  obtain ⟨cols, rows⟩ := f
  replace hi : cols.indexOf? "distance" = some i := hi
  replace hc : 2 ≤ cols.length := hc
  rw [selectRide_longest]
  unfold selectLongest
  dsimp only
  rw [hi]
  cases cols with
  | nil => simp at hc
  | cons a t =>
    cases t with
    | nil => simp at hc
    | cons b t2 =>
      unfold IndexedFrame.filterRows
      dsimp only
      cases hm : rows.filter (longestMask ⟨a :: b :: t2, rows⟩ i) with
      | nil => rfl
      | cons x l =>
        cases l with
        | nil => obtain ⟨n, r⟩ := x; rfl
        | cons y l2 => rfl

/-- Claim C1 counterexample: two rides tie for the maximum distance 10,
and the selection returns the two-row table itself — no single first
matching row. -/
theorem longest_tie_counterexample :
    selectRide "longest" tieRides = some (.ok (.frame tieRides)) ∧
    isSingleRowResult (selectLongest tieRides) = false :=
  ⟨rfl, rfl⟩

/-- Claim C1 witness: on a table whose second ride uniquely attains the
maximum distance, mode `longest` returns exactly that row. -/
theorem longest_selection_amended_witness :
    (uniqRides.cols.indexOf? "distance" = some 0 ∧ 2 ≤ uniqRides.cols.length) ∧
    selectRide "longest" uniqRides =
      some (.ok (.row (.vstr "2021-03-06")
        (uniqRides.cols.zip [.vnum 10, .vstr "Ride"]))) :=
  ⟨⟨rfl, by decide⟩,
   by rw [longest_selection_amended uniqRides 0 rfl (by decide)]; rfl⟩

/-- Claim C2 (amended): on an empty filtered subset, mode `last` fails
with an IndexError, but mode `longest` does not fail: the NaN maximum
matches no row and squeezing the empty selection silently returns the
empty table itself to the renderer. -/
theorem empty_subset_selection_amended (f : IndexedFrame) (i : Nat)
    (hrows : f.rows = []) (hi : f.cols.indexOf? "distance" = some i)
    (hc : 2 ≤ f.cols.length) :
    selectRide "last" f =
      some (.error "IndexError: single positional indexer is out-of-bounds") ∧
    selectRide "longest" f = some (.ok (.frame f)) := by
  obtain ⟨cols, rows⟩ := f
  replace hrows : rows = [] := hrows
  subst hrows
  replace hi : cols.indexOf? "distance" = some i := hi
  replace hc : 2 ≤ cols.length := hc
  constructor
  · rw [selectRide_last]; rfl
  · rw [selectRide_longest]
    unfold selectLongest
    dsimp only
    rw [hi]
    cases cols with
    | nil => simp at hc
    | cons a t =>
      cases t with
      | nil => simp at hc
      | cons b t2 => rfl

/-- Claim C2 counterexample: a table holding one Run filters to an empty
rides table, on which mode `longest` succeeds instead of failing,
handing the empty table onward. -/
theorem empty_subset_counterexample :
    (filterRides runOnlyActivities).bind (fun r => r.setIndex "start_date_local") =
      .ok runOnlyRides ∧
    selectRide "longest" runOnlyRides = some (.ok (.frame runOnlyRides)) :=
  ⟨rfl, rfl⟩

/-- Claim C2 witness: the empty rides table instantiates the amended
behavior — IndexError in mode `last`, silent success in mode `longest`. -/
theorem empty_subset_selection_amended_witness :
    (runOnlyRides.rows = [] ∧ runOnlyRides.cols.indexOf? "distance" = some 0 ∧
     2 ≤ runOnlyRides.cols.length) ∧
    (selectRide "last" runOnlyRides =
       some (.error "IndexError: single positional indexer is out-of-bounds") ∧
     selectRide "longest" runOnlyRides = some (.ok (.frame runOnlyRides))) :=
  ⟨⟨rfl, rfl, by decide⟩,
   empty_subset_selection_amended runOnlyRides 0 rfl rfl (by decide)⟩

/-- Table lacking all of the dropped columns. -/
def missingColFrame : Frame := ⟨["type"], []⟩

/-- Claim C8: when any label of the fixed drop list is absent from the
column axis, the drop step raises a KeyError and the run terminates;
there is no defensive check skipping missing labels. -/
theorem drop_missing_column_raises (f : Frame) (c : String)
    (hc : c ∈ dropList) (hf : f.cols.contains c = false) :
    dropStep f = .error "KeyError: labels not found in axis" := by
  unfold dropStep
  have hall : dropList.all f.cols.contains = false := by
    cases hall : dropList.all f.cols.contains with
    | false => rfl
    | true =>
        have := List.all_eq_true.mp hall c hc
        rw [hf] at this
        exact absurd this (by simp)
  rw [hall]
  rfl

/-- Claim C8 witness: a table with only a `type` column makes the drop
step raise. -/
theorem drop_missing_column_raises_witness :
    ("manual" ∈ dropList ∧ missingColFrame.cols.contains "manual" = false) ∧
    dropStep missingColFrame = .error "KeyError: labels not found in axis" :=
  ⟨⟨by decide, rfl⟩, drop_missing_column_raises missingColFrame "manual" (by decide) rfl⟩

/-- Claim C3: every run whose rendering stage completes saves the map
document at the fixed relative path "ride_map.html", and the save
replaces whatever the file system previously held at that path. -/
theorem map_saved_to_fixed_path (myRide : Option (Except String Squeezed))
    (out : RenderOutput) (fs : String → Option String) (html : String)
    (h : renderStage myRide = .ok out) :
    out.savePath = "ride_map.html" ∧
    saveMap fs out html "ride_map.html" = some html := by
  have hp : out.savePath = "ride_map.html" := by
    unfold renderStage at h
    repeat' split at h
    all_goals try simp_all
    rw [← h]
  refine ⟨hp, ?_⟩
  unfold saveMap
  rw [hp]
  simp

/-- Claim C3 witness: the demo selection renders and is saved at
"ride_map.html", replacing the file system's previous document. -/
theorem map_saved_to_fixed_path_witness :
    renderStage demoRide = .ok demoOut ∧
    (demoOut.savePath = "ride_map.html" ∧
     saveMap demoFs demoOut "a new document" "ride_map.html" = some "a new document") :=
  ⟨rfl, map_saved_to_fixed_path demoRide demoOut demoFs "a new document" rfl⟩

/-- Claim C6: the rendered map center is the arithmetic mean of the
latitudes paired with the arithmetic mean of the longitudes of the
selected ride's decoded coordinates; on the two-point sequence
(45, -122), (45.01, -122.01) it is (45.005, -122.005). -/
theorem map_center_is_coordinate_mean (cs : List (ℚ × ℚ)) (n : Value)
    (cells : List (String × Value)) (hne : cs ≠ [])
    (hcell : cells.lookup "map.polyline" = some (.vcoords cs)) :
    renderStage (some (.ok (.row n cells))) = .ok ⟨centroid cs, cs, "ride_map.html"⟩ ∧
    centroid cs = [(cs.map Prod.fst).sum / cs.length, (cs.map Prod.snd).sum / cs.length] ∧
    centroid demoCoords = [45 + 5 / 1000, -(122 + 5 / 1000)] := by
  refine ⟨?_, ?_, ?_⟩
  · have e : renderStage (some (.ok (.row n cells))) =
        (match cells.lookup "map.polyline" with
          | some (.vcoords cs) => .ok ⟨centroid cs, cs, "ride_map.html"⟩
          | _ => .error "KeyError: map.polyline") := rfl
    rw [e, hcell]
  · unfold centroid npMean
    rw [List.length_map, List.length_map]
  · norm_num [centroid, npMean, demoCoords]

/-- Claim C6 witness: the demo route instantiates the centroid facts,
with map center (45.005, -122.005). -/
theorem map_center_is_coordinate_mean_witness :
    (demoCoords ≠ [] ∧ demoCells.lookup "map.polyline" = some (.vcoords demoCoords)) ∧
    (renderStage (some (.ok (.row (.vstr "2021-03-05") demoCells))) =
       .ok ⟨centroid demoCoords, demoCoords, "ride_map.html"⟩ ∧
     centroid demoCoords =
       [(demoCoords.map Prod.fst).sum / demoCoords.length,
        (demoCoords.map Prod.snd).sum / demoCoords.length] ∧
     centroid demoCoords = [45 + 5 / 1000, -(122 + 5 / 1000)]) :=
  ⟨⟨by decide, rfl⟩,
   map_center_is_coordinate_mean demoCoords (.vstr "2021-03-05") demoCells (by decide) rfl⟩

/-- Claim C9: any mode other than the literals `longest` and `last`
matches no branch of the dispatch, so `my_ride` is never assigned, and
the first later use of the selection faults with a NameError; there is
no fallback to a default mode. -/
theorem unknown_mode_never_selects (mode : String) (f : IndexedFrame)
    (h1 : mode ≠ "longest") (h2 : mode ≠ "last") :
    selectRide mode f = none ∧
    renderStage (selectRide mode f) = .error "NameError: my_ride is not defined" := by
  have e : selectRide mode f = none := by
    have b1 : (mode == "longest") = false := beq_eq_false_iff_ne.mpr h1
    have b2 : (mode == "last") = false := beq_eq_false_iff_ne.mpr h2
    simp [selectRide, b1, b2]
  exact ⟨e, by rw [e]; rfl⟩

/-- Claim C9 witness: the unrecognized mode "first" selects nothing and
the render stage faults with a NameError. -/
theorem unknown_mode_never_selects_witness :
    (("first" : String) ≠ "longest" ∧ ("first" : String) ≠ "last") ∧
    (selectRide "first" runOnlyRides = none ∧
     renderStage (selectRide "first" runOnlyRides) =
       .error "NameError: my_ride is not defined") :=
  ⟨⟨by decide, by decide⟩,
   unknown_mode_never_selects "first" runOnlyRides (by decide) (by decide)⟩

/-- Claim C10: computing `rides` by filtering to type Ride and
re-indexing by start date leaves the full `activities` table itself
unchanged — every row and column, the `start_date_local` column
included, is the same before and after the step. -/
theorem filter_reindex_preserves_activities (s : ScriptState) :
    (ridesStep s).activities = s.activities ∧
    ((ridesStep s).activities.cols.contains "start_date_local") =
      (s.activities.cols.contains "start_date_local") :=
  ⟨rfl, rfl⟩
